import Mathlib

/-!
Verification of the Requirement_Agent AI-service code (src/ai-service/).

The development shallowly embeds the Python code of the four service
variants: the tolerant JSON extractor (first open brace / last close
brace scan followed by a JSON parse with a hardcoded fallback), the
prompt builders, the call_openai wrappers and the endpoint pipelines.
Python strings are modelled as List Char, json.loads as an executable
JSON parser returning Option Json, and the upstream HTTP interaction
as an oracle value describing the answer of the provider.
-/

namespace ReqAgent

/-- The open-brace character (written via its code point to keep
string literals free of braces). -/
def lbrace : Char := Char.ofNat 123

/-- The close-brace character. -/
def rbrace : Char := Char.ofNat 125

/-- Index of the first occurrence of a character in a list, if any.
Basis for the Python str.find method. -/
def firstIdx (c : Char) : List Char → Option Nat
  | [] => none
  | a :: as => if a = c then some 0 else (firstIdx c as).map (· + 1)

/-- Index of the last occurrence of a character in a list, if any.
Basis for the Python str.rfind method. -/
def lastIdx (c : Char) : List Char → Option Nat
  | [] => none
  | a :: as =>
    match lastIdx c as with
    | some i => some (i + 1)
    | none => if a = c then some 0 else none

/-- Python str.find: first index of the character, or -1. -/
def pyFind (c : Char) (s : List Char) : Int :=
  match firstIdx c s with
  | some i => (i : Int)
  | none => -1

/-- Python str.rfind: last index of the character, or -1. -/
def pyRfind (c : Char) (s : List Char) : Int :=
  match lastIdx c s with
  | some i => (i : Int)
  | none => -1

/-- Python slice s[a:b]; the extractor only uses it with nonnegative
bounds, where it agrees with take/drop. -/
def pySlice (s : List Char) (a b : Nat) : List Char :=
  (s.take b).drop a

/-- Python os.getenv(name, default): the value of the variable when the
variable is set (possibly the empty string), the default otherwise. -/
def pyGetenv (envVar : Option String) (default : String) : String :=
  envVar.getD default

/-- Python bool(s) on a string: true exactly for nonempty strings. -/
def pyTruthyStr (s : String) : Bool :=
  decide (s ≠ "")

/-- Python xs[-n:]: the last n elements (the whole list when shorter). -/
def pyLastN (n : Nat) (xs : List α) : List α :=
  xs.drop (xs.length - n)

/-- JSON values as produced by json.loads: objects keep their key/value
pairs in textual order, numbers keep their lexeme. -/
inductive Json where
  | null
  | bool (b : Bool)
  | num (lexeme : String)
  | str (s : String)
  | arr (elems : List Json)
  | obj (members : List (String × Json))

/-- JSON insignificant whitespace (the four characters json.loads skips). -/
def isJsonWS (c : Char) : Bool :=
  c = ' ' || c = '\t' || c = '\n' || c = '\r'

/-- Drop leading JSON whitespace. -/
def skipWS : List Char → List Char
  | [] => []
  | c :: cs => if isJsonWS c then skipWS cs else c :: cs

/-- Value of a single hex digit. -/
def hexVal (c : Char) : Option Nat :=
  if '0' ≤ c ∧ c ≤ '9' then some (c.toNat - '0'.toNat)
  else if 'a' ≤ c ∧ c ≤ 'f' then some (c.toNat - 'a'.toNat + 10)
  else if 'A' ≤ c ∧ c ≤ 'F' then some (c.toNat - 'A'.toNat + 10)
  else none

/-- Single-character JSON string escapes. -/
def escChar (c : Char) : Option Char :=
  if c = '"' then some '"'
  else if c = '\\' then some '\\'
  else if c = '/' then some '/'
  else if c = 'b' then some (Char.ofNat 8)
  else if c = 'f' then some (Char.ofNat 12)
  else if c = 'n' then some '\n'
  else if c = 'r' then some '\r'
  else if c = 't' then some '\t'
  else none

/-- Parse the body of a JSON string after the opening quote, returning
the decoded characters and the input following the closing quote.
Unescaped control characters are rejected as json.loads does in strict
mode. -/
def parseStrChars : List Char → Option (List Char × List Char)
  | [] => none
  | c :: cs =>
    if c = '"' then some ([], cs)
    else if c = '\\' then
      match cs with
      | [] => none
      | e :: es =>
        if e = 'u' then
          match es with
          | h1 :: h2 :: h3 :: h4 :: es2 =>
            match hexVal h1, hexVal h2, hexVal h3, hexVal h4 with
            | some a, some b, some c2, some d =>
              (parseStrChars es2).map
                (fun p => (Char.ofNat (a * 4096 + b * 256 + c2 * 16 + d) :: p.1, p.2))
            | _, _, _, _ => none
          | _ => none
        else
          match escChar e with
          | some ec => (parseStrChars es).map (fun p => (ec :: p.1, p.2))
          | none => none
    else if c.toNat < 32 then none
    else (parseStrChars cs).map (fun p => (c :: p.1, p.2))

/-- Integer part of a JSON number after an optional sign:
0, or a nonzero digit followed by digits. -/
def lexIntPart : List Char → Option (List Char × List Char)
  | [] => none
  | c :: cs =>
    if c = '0' then some ([c], cs)
    else if c.isDigit then
      some (c :: cs.takeWhile Char.isDigit, cs.dropWhile Char.isDigit)
    else none

/-- Optional fraction part of a JSON number. -/
def lexFracPart : List Char → Option (List Char × List Char)
  | '.' :: cs =>
    let ds := cs.takeWhile Char.isDigit
    if ds = [] then none else some ('.' :: ds, cs.dropWhile Char.isDigit)
  | s => some ([], s)

/-- Optional exponent part of a JSON number. -/
def lexExpPart : List Char → Option (List Char × List Char)
  | [] => some ([], [])
  | c :: cs =>
    if c = 'e' || c = 'E' then
      let sgnRest : List Char × List Char :=
        match cs with
        | d :: ds => if d = '+' || d = '-' then ([d], ds) else ([], cs)
        | [] => ([], [])
      let ds := sgnRest.2.takeWhile Char.isDigit
      if ds = [] then none
      else some (c :: (sgnRest.1 ++ ds), sgnRest.2.dropWhile Char.isDigit)
    else some ([], c :: cs)

/-- Parse a JSON number, keeping its lexeme. -/
def parseNum (s : List Char) : Option (Json × List Char) :=
  let sgnRest : List Char × List Char :=
    match s with
    | '-' :: cs => (['-'], cs)
    | _ => ([], s)
  match lexIntPart sgnRest.2 with
  | none => none
  | some (ip, r1) =>
    match lexFracPart r1 with
    | none => none
    | some (fp, r2) =>
      match lexExpPart r2 with
      | none => none
      | some (ep, r3) => some (Json.num (String.mk (sgnRest.1 ++ ip ++ fp ++ ep)), r3)

/-- Fuel-indexed family of the three mutually recursive parsing
functions: value, object members, array elements.  Each level hands
the predecessor level to every recursive call, so the definition is
structural on the fuel and reduces in the kernel. -/
def parsers : Nat →
    (List Char → Option (Json × List Char)) ×
    (List Char → Option (List (String × Json) × List Char)) ×
    (List Char → Option (List Json × List Char))
  | 0 => (fun _ => none, fun _ => none, fun _ => none)
  | Nat.succ fuel =>
    let pv := (parsers fuel).1
    let pm := (parsers fuel).2.1
    let pe := (parsers fuel).2.2
    ( -- value
      fun s =>
        match skipWS s with
        | [] => none
        | c :: cs =>
          if c = lbrace then
            match skipWS cs with
            | [] => none
            | d :: ds =>
              if d = rbrace then some (Json.obj [], ds)
              else (pm (d :: ds)).map (fun p => (Json.obj p.1, p.2))
          else if c = '[' then
            match skipWS cs with
            | [] => none
            | d :: ds =>
              if d = ']' then some (Json.arr [], ds)
              else (pe (d :: ds)).map (fun p => (Json.arr p.1, p.2))
          else if c = '"' then
            (parseStrChars cs).map (fun p => (Json.str (String.mk p.1), p.2))
          else
            match c :: cs with
            | 't' :: 'r' :: 'u' :: 'e' :: rest => some (Json.bool true, rest)
            | 'f' :: 'a' :: 'l' :: 's' :: 'e' :: rest => some (Json.bool false, rest)
            | 'n' :: 'u' :: 'l' :: 'l' :: rest => some (Json.null, rest)
            | s2 => parseNum s2,
      -- object members (at a position where a key is expected)
      fun s =>
        match skipWS s with
        | '"' :: cs =>
          match parseStrChars cs with
          | none => none
          | some (kcs, r1) =>
            match skipWS r1 with
            | ':' :: r2 =>
              match pv r2 with
              | none => none
              | some (v, r3) =>
                match skipWS r3 with
                | [] => none
                | c :: r4 =>
                  if c = ',' then
                    (pm r4).map (fun p => ((String.mk kcs, v) :: p.1, p.2))
                  else if c = rbrace then some ([(String.mk kcs, v)], r4)
                  else none
            | _ => none
        | _ => none,
      -- array elements (at a position where a value is expected)
      fun s =>
        match pv s with
        | none => none
        | some (v, r1) =>
          match skipWS r1 with
          | [] => none
          | c :: r2 =>
            if c = ',' then (pe r2).map (fun p => (v :: p.1, p.2))
            else if c = ']' then some ([v], r2)
            else none )

/-- Parse a JSON value with enough fuel for any input of this length. -/
def parseVal (s : List Char) : Option (Json × List Char) :=
  (parsers (2 * s.length + 4)).1 s

/-- Python json.loads on the embedded strings: a single JSON value,
possibly surrounded by whitespace; anything else fails (returns none
where the Python function raises). -/
def json_loads (s : List Char) : Option Json :=
  match parseVal s with
  | some (v, rest) => if skipWS rest = [] then some v else none
  | none => none

/-- True exactly for object values (constructor discriminator). -/
def Json.isObj : Json → Bool
  | .obj _ => true
  | _ => false

/-- True exactly for array values. -/
def Json.isArr : Json → Bool
  | .arr _ => true
  | _ => false

/-- Lookup in the member list of an object; the last occurrence of a key
wins, as in a Python dict built by json.loads. -/
def jsonGet (k : String) : List (String × Json) → Option Json
  | [] => none
  | (k2, v) :: rest =>
    match jsonGet k rest with
    | some r => some r
    | none => if k2 = k then some v else none

/-! ## Static fallback and placeholder structures -/

/-- The hardcoded fallback dict of simple_ai.py create_flow (lines
96-117); its title interpolates the template_type of the request. -/
def simple_fallback (template_type : String) : Json :=
  Json.obj [
    ("title", Json.str (template_type ++ " Application")),
    ("sections", Json.arr [
      Json.obj [
        ("id", Json.str "org_info"),
        ("title", Json.str "Organization Information"),
        ("questions", Json.arr [
          Json.obj [("id", Json.str "q1"),
            ("text", Json.str "What is your organization's name?"),
            ("type", Json.str "text")],
          Json.obj [("id", Json.str "q2"),
            ("text", Json.str "What type of organization are you (individual, business, non-profit)?"),
            ("type", Json.str "select")],
          Json.obj [("id", Json.str "q3"),
            ("text", Json.str "What is your primary contact email?"),
            ("type", Json.str "email")]])],
      Json.obj [
        ("id", Json.str "project_details"),
        ("title", Json.str "Project Details"),
        ("questions", Json.arr [
          Json.obj [("id", Json.str "q4"),
            ("text", Json.str "What is your project name?"),
            ("type", Json.str "text")],
          Json.obj [("id", Json.str "q5"),
            ("text", Json.str "Please describe your project goals."),
            ("type", Json.str "textarea")]])]])]

/-- The fixed fallback flow of demo_ai.py create_fallback_conversation
(lines 481-505). -/
def demo_fallback : Json :=
  Json.obj [
    ("title", Json.str "Adopt-A-Highway Program Setup"),
    ("description", Json.str "Configure your county's volunteer highway cleanup program"),
    ("sections", Json.arr [
      Json.obj [
        ("id", Json.str "program_basics"),
        ("title", Json.str "Program Basics"),
        ("questions", Json.arr [
          Json.obj [("id", Json.str "county"),
            ("text", Json.str "What county is implementing this program?"),
            ("type", Json.str "text")],
          Json.obj [("id", Json.str "duration"),
            ("text", Json.str "How long should volunteer commitments last?"),
            ("type", Json.str "select"),
            ("options", Json.arr [Json.str "1 year", Json.str "2 years", Json.str "3 years"])],
          Json.obj [("id", Json.str "departments"),
            ("text", Json.str "Which departments will participate?"),
            ("type", Json.str "multiselect"),
            ("options", Json.arr [Json.str "Public Works", Json.str "Environmental Services",
              Json.str "GIS", Json.str "Communications"])]])],
      Json.obj [
        ("id", Json.str "volunteer_process"),
        ("title", Json.str "Volunteer Experience"),
        ("questions", Json.arr [
          Json.obj [("id", Json.str "registration"),
            ("text", Json.str "How should volunteers register?"),
            ("type", Json.str "select"),
            ("options", Json.arr [Json.str "Simple registration", Json.str "Verification required",
              Json.str "Manual approval"])],
          Json.obj [("id", Json.str "segments"),
            ("text", Json.str "How should volunteers select highway segments?"),
            ("type", Json.str "select"),
            ("options", Json.arr [Json.str "Free-draw on map", Json.str "Select predefined segments",
              Json.str "Both options"])]])]])]

/-- The dict working_ai.py create_flow assigns when no brace span is
found (line 174). -/
def working_else_flow : Json :=
  Json.obj [
    ("title", Json.str "Converted Flow"),
    ("sections", Json.arr [
      Json.obj [("title", Json.str "Generated"),
        ("questions", Json.arr [Json.str "AI conversion completed"])]])]

/-- The dict working_ai.py create_flow assigns when the candidate fails
to parse (line 176). -/
def working_except_flow : Json :=
  Json.obj [
    ("title", Json.str "AI Processing"),
    ("sections", Json.arr [
      Json.obj [("title", Json.str "Demo"),
        ("questions", Json.arr [Json.str "Conversion in progress"])]])]

/-! ## The tolerant JSON extractors -/

/-- simple_ai.py create_flow lines 86-117 (the identical block recurs
in extract_decisions lines 192-204 with another fallback): slice from
the first open brace to the last close brace and parse it; when no
such span exists, parse the whole response; any parse failure yields
the hardcoded fallback. -/
def simple_extract (template_type : String) (resp : List Char) : Json :=
  let start := pyFind lbrace resp
  let e := pyRfind rbrace resp + 1
  match (if start ≠ -1 ∧ e > start
         then json_loads (pySlice resp start.toNat e.toNat)
         else json_loads resp) with
  | some r => r
  | none => simple_fallback template_type

/-- The brace-span parse attempt shared by the demo_ai.py extractors:
some parsed value when a span exists and parses, none otherwise. -/
def demo_extract_attempt (resp : List Char) : Option Json :=
  let start := pyFind lbrace resp
  let e := pyRfind rbrace resp + 1
  if start ≠ -1 ∧ e > start
  then json_loads (pySlice resp start.toNat e.toNat)
  else none

/-- demo_ai.py convert_document_to_conversation lines 221-235 and
create_conversation_flow lines 408-418: parse the brace span; both the
no-span case and a parse failure yield create_fallback_conversation. -/
def demo_extract (resp : List Char) : Json :=
  let start := pyFind lbrace resp
  let e := pyRfind rbrace resp + 1
  if start ≠ -1 ∧ e > start then
    match json_loads (pySlice resp start.toNat e.toNat) with
    | some r => r
    | none => demo_fallback
  else demo_fallback

/-- working_ai.py create_flow lines 167-176: parse the brace span; no
span yields the Converted Flow placeholder, a parse failure the AI
Processing placeholder. -/
def working_extract (resp : List Char) : Json :=
  let start := pyFind lbrace resp
  let e := pyRfind rbrace resp + 1
  if start ≠ -1 ∧ e > start then
    match json_loads (pySlice resp start.toNat e.toNat) with
    | some r => r
    | none => working_except_flow
  else working_else_flow

/-! ## Prompt builders (the f-string templates; literal braces are
written as hex escapes) -/

/-- The create-flow prompt of simple_ai.py (lines 64-81), including
the trailing space after the section1 id line present in the source. -/
def simple_prompt (template_type template : String) : String :=
  "Convert this " ++ template_type ++ " template into conversational questions:\n\n"
    ++ template
    ++ "\n\nReturn JSON with this exact format:\n\x7b\n    \"title\": \""
    ++ template_type
    ++ " Application\",\n    \"sections\": [\n        \x7b\n            \"id\": \"section1\", \n            \"title\": \"Organization Information\",\n            \"questions\": [\n                \x7b\"id\": \"q1\", \"text\": \"What is your organization's name?\", \"type\": \"text\"\x7d,\n                \x7b\"id\": \"q2\", \"text\": \"What type of organization are you?\", \"type\": \"select\"\x7d\n            ]\n        \x7d\n    ]\n\x7d"

/-- The create-flow prompt of main.py (lines 76-97). -/
def main_create_flow_prompt (template_type template_content : String) : String :=
  "Convert this " ++ template_type
    ++ " requirements template into a simple conversation flow with natural questions.\n\nTEMPLATE:\n"
    ++ template_content
    ++ "\n\nCreate 3-5 sections with conversational questions. Return JSON format:\n\x7b\n    \"title\": \"Conversation title\",\n    \"sections\": [\n        \x7b\n            \"id\": \"section1\",\n            \"title\": \"Section Name\",\n            \"questions\": [\n                \x7b\n                    \"id\": \"q1\",\n                    \"text\": \"What's your organization's name?\",\n                    \"type\": \"text\"\n                \x7d\n            ]\n        \x7d\n    ]\n\x7d"

/-- One transcript line of main.py process_user_response (line 124). -/
def historyLine (h : String × String) : String :=
  "Q: " ++ h.1 ++ "\nA: " ++ h.2

/-- The process-response prompt of main.py (lines 123-144): the
history is capped to the last five exchanges before rendering. -/
def main_process_prompt (conversation_history : List (String × String))
    (current_question user_response : String) : String :=
  let history_text := String.intercalate "\n" ((pyLastN 5 conversation_history).map historyLine)
  "Process this user response in a requirements gathering conversation.\n\nCONVERSATION HISTORY:\n"
    ++ history_text
    ++ "\n\nCURRENT QUESTION: " ++ current_question
    ++ "\nUSER RESPONSE: " ++ user_response
    ++ "\n\nExtract key information and suggest the next question. Return JSON:\n\x7b\n    \"next_question\": \"What's the next question to ask?\",\n    \"extracted_info\": \x7b\n        \"key1\": \"extracted value 1\"\n    \x7d,\n    \"is_complete\": false,\n    \"confidence_score\": 0.85\n\x7d"

/-- The create-flow prompt of working_ai.py (lines 150-163). -/
def working_prompt (template_content : String) : String :=
  "Convert this Adopt-A-Highway requirements document to natural conversation questions:\n\n"
    ++ template_content
    ++ "\n\nMake it conversational like ChatGPT. Return JSON:\n\x7b\n    \"title\": \"Program Setup Assistant\",\n    \"sections\": [\n        \x7b\n            \"title\": \"Section Name\",\n            \"questions\": [\"Natural question 1?\", \"Natural question 2?\"]\n        \x7d\n    ]\n\x7d"

/-! ## Configuration (API key from the environment) -/

/-- The module-level key of simple_ai.py line 22 (the same line recurs
at working_ai.py line 29 and demo_ai.py line 27): the environment
value when the variable is set, else the placeholder default. -/
def OPENAI_API_KEY (envVar : Option String) : String :=
  pyGetenv envVar "your-openai-key-here"

/-- The openai_configured flag of the /health endpoints (simple_ai.py
line 55, working_ai.py line 84, demo_ai.py line 154): bool(key). -/
def health_openai_configured (envVar : Option String) : Bool :=
  pyTruthyStr (OPENAI_API_KEY envVar)

/-! ## Upstream oracle and the call_openai wrappers

The behaviour of the provider for one request is abstracted as an oracle
value: either an HTTP response (status plus, for 200, the message
content that the code reads out of the response JSON; for other
statuses the response text) or a raised network/timeout error.  Each
embedded call function also reports how many network requests it
issued, so that the call-count claims are about the structure of the code
rather than asserted. -/

inductive Upstream where
  | resp (status : Nat) (content : String)
  | netError (msg : String)

/-- simple_ai.py call_openai (lines 24-51): one unconditional
requests.post; a non-200 status raises an Exception carrying the
status and response text, a network failure propagates the requests
exception, a 200 returns the message content. -/
def simple_call_openai_run (prompt : String) (u : Upstream) :
    Except String String × Nat :=
  (match u with
   | .resp status content =>
     if status ≠ 200
     then .error ("OpenAI API error: " ++ toString status ++ " - " ++ content)
     else .ok content
   | .netError m => .error m, 1)

/-- working_ai.py call_openai (lines 39-69): returns plain strings in
every case; the not-configured branch answers without any network
request, otherwise one request is issued and a non-200 status or a
caught exception is rendered into the returned string. -/
def working_call_openai_run (key prompt : String) (u : Upstream) :
    String × Nat :=
  if !(pyTruthyStr key) then ("OpenAI not configured", 0)
  else
    (match u with
     | .resp status content =>
       if status = 200 then content else "OpenAI Error: " ++ toString status
     | .netError m => "Error: " ++ m, 1)

/-- demo_ai.py call_openai_simple, the binding in effect (lines
507-541): same shape as working_ai with different message texts. -/
def demo_call_openai_simple_run (key prompt : String) (u : Upstream) :
    String × Nat :=
  if !(pyTruthyStr key) then ("OpenAI API key not configured", 0)
  else
    (match u with
     | .resp status content =>
       if status = 200 then content else "OpenAI API Error: " ++ toString status
     | .netError m => "Error: " ++ m, 1)

/-- The SDK call in main.py (lines 99-107): one request; any non-200 status
or network failure raises an SDK exception (message abstracted), a 200
yields the message content (line 110). -/
def main_openai_create_run (prompt : String) (u : Upstream) :
    Except String String × Nat :=
  (match u with
   | .resp status content =>
     if status = 200 then .ok content
     else .error ("Error code: " ++ toString status)
   | .netError m => .error m, 1)

/-! ## Endpoint pipelines -/

/-- simple_ai.py create_flow (lines 57-122): build the prompt, call
the provider once, extract; a raised call error becomes
HTTPException(500, "Error: ..."). The second component counts
upstream requests. -/
def simple_create_flow_run (template_type template_content : String)
    (u : Upstream) : Except (Nat × String) Json × Nat :=
  let prompt := simple_prompt template_type template_content
  let call := simple_call_openai_run prompt u
  (match call.1 with
   | .error e => .error (500, "Error: " ++ e)
   | .ok resp => .ok (simple_extract template_type resp.toList), call.2)

/-- The value/HTTP-error outcome of simple_ai.py create_flow. -/
def simple_create_flow (template_type template_content : String)
    (u : Upstream) : Except (Nat × String) Json :=
  (simple_create_flow_run template_type template_content u).1

/-- Outcome of main.py create_conversation_flow: a validated flow or
an HTTPException status (the detail string is abstracted away). -/
inductive MainResult where
  | flow (v : Json)
  | httpError (status : Nat)

/-- The pydantic ConversationFlow model of main.py (lines 53-55),
modelled as: a JSON object whose title is a string and whose sections
are a list of objects. -/
def validConversationFlow (v : Json) : Bool :=
  match v with
  | .obj kvs =>
    (match jsonGet "title" kvs with
     | some (.str _) => true
     | _ => false)
    && (match jsonGet "sections" kvs with
        | some (.arr xs) => xs.all Json.isObj
        | _ => false)
  | _ => false

/-- The response-handling tail of main.py create_conversation_flow
(lines 109-116): json.loads on the full content, then the pydantic
constructor; any exception becomes HTTPException(500, ...).  There is
no brace scan and no fallback in this variant. -/
def main_parse_flow (content : List Char) : MainResult :=
  match json_loads content with
  | some v => if validConversationFlow v then .flow v else .httpError 500
  | none => .httpError 500

/-- main.py create_conversation_flow (lines 72-116) end to end, with
the upstream request count. -/
def main_create_flow_run (template_type template_content : String)
    (u : Upstream) : MainResult × Nat :=
  let prompt := main_create_flow_prompt template_type template_content
  let call := main_openai_create_run prompt u
  (match call.1 with
   | .error _ => .httpError 500
   | .ok content => main_parse_flow content.toList, call.2)

/-- The JSON body returned by working_ai.py create_flow (lines
178-182). -/
structure WorkingFlowResponse where
  success : Bool
  converted_flow : Json
  ai_response_preview : String

/-- The preview field of working_ai.py create_flow (line 181). -/
def working_ai_preview (s : String) : String :=
  if s.length > 300 then s.take 300 ++ "..." else s

/-- working_ai.py create_flow (lines 146-185) end to end: the call
never raises, so the endpoint always answers success = True, with the
extracted (or placeholder) flow and a preview of the model text. -/
def working_create_flow_run (key template_content : String)
    (u : Upstream) : WorkingFlowResponse × Nat :=
  let prompt := working_prompt template_content
  let call := working_call_openai_run key prompt u
  (⟨true, working_extract call.1.toList, working_ai_preview call.1⟩, call.2)

/-- The response of working_ai.py create_flow. -/
def working_create_flow (key template_content : String)
    (u : Upstream) : WorkingFlowResponse :=
  (working_create_flow_run key template_content u).1

/-! ## Lemmas about the index scans -/

theorem firstIdx_eq_none_iff (c : Char) (s : List Char) :
    firstIdx c s = none ↔ c ∉ s := by
  induction s with
  | nil => simp [firstIdx]
  | cons a as ih =>
    by_cases h : a = c
    · simp [firstIdx, h]
    · have h' : ¬(c = a) := fun hc => h hc.symm
      simp [firstIdx, h, h', Option.map_eq_none', ih]

theorem lastIdx_eq_none_iff (c : Char) (s : List Char) :
    lastIdx c s = none ↔ c ∉ s := by
  induction s with
  | nil => simp [lastIdx]
  | cons a as ih =>
    by_cases h : a = c
    · cases hl : lastIdx c as <;> simp [lastIdx, h, hl]
    · have h' : ¬(c = a) := fun hc => h hc.symm
      cases hl : lastIdx c as with
      | none => simp [lastIdx, hl, h, h', ih.mp hl]
      | some i =>
        have : c ∈ as := by
          by_contra hm
          rw [ih.mpr hm] at hl; cases hl
        simp [lastIdx, hl, this]

theorem firstIdx_append_of_not_mem (c : Char) (xs ys : List Char)
    (h : c ∉ xs) :
    firstIdx c (xs ++ ys) = (firstIdx c ys).map (· + xs.length) := by
  induction xs with
  | nil => simp
  | cons a as ih =>
    have ha : a ≠ c := fun hc => h (hc ▸ List.mem_cons_self a as)
    have has : c ∉ as := fun hm => h (List.mem_cons_of_mem a hm)
    simp only [List.cons_append, firstIdx, ha, if_false, List.append_eq,
      ih has, Option.map_map, List.length_cons]
    cases h : firstIdx c ys with
    | none => simp [h]
    | some i =>
      simp only [h, Option.map_some', Function.comp_apply, Option.some.injEq]
      omega

theorem lastIdx_append (c : Char) (xs ys : List Char) :
    lastIdx c (xs ++ ys)
      = match lastIdx c ys with
        | some j => some (xs.length + j)
        | none => lastIdx c xs := by
  induction xs with
  | nil =>
    cases h : lastIdx c ys with
    | some j => simp [h]
    | none => simp [h, lastIdx]
  | cons a as ih =>
    cases hy : lastIdx c ys with
    | some j =>
      simp only [hy] at ih
      simp only [List.cons_append, lastIdx, List.append_eq, ih,
        List.length_cons, Option.some.injEq]
      omega
    | none =>
      simp only [hy] at ih
      simp only [List.cons_append, lastIdx, List.append_eq, ih]

theorem lastIdx_concat_self (c : Char) (xs : List Char) :
    lastIdx c (xs ++ [c]) = some xs.length := by
  rw [lastIdx_append]
  simp [lastIdx]

/-- When a brace span exists, the guard in the code holds and the
slice bounds are the endpoints of the span. -/
theorem extract_cond_true (resp : List Char) (i j : Nat)
    (hf : firstIdx lbrace resp = some i)
    (hl : lastIdx rbrace resp = some j)
    (hij : i < j + 1) :
    (pyFind lbrace resp ≠ -1 ∧ pyRfind rbrace resp + 1 > pyFind lbrace resp)
    ∧ (pyFind lbrace resp).toNat = i
    ∧ (pyRfind rbrace resp + 1).toNat = j + 1 := by
  simp only [pyFind, pyRfind, hf, hl]
  omega

/-- Shared content of the span claims: when the first-open to
last-close slice parses, each extractor returns the parsed value. -/
theorem extract_parsed_of_span (resp : List Char) (template_type : String)
    (i j : Nat) (v : Json)
    (hf : firstIdx lbrace resp = some i)
    (hl : lastIdx rbrace resp = some j)
    (hij : i < j + 1)
    (hp : json_loads (pySlice resp i (j + 1)) = some v) :
    simple_extract template_type resp = v
    ∧ demo_extract resp = v
    ∧ working_extract resp = v := by
  obtain ⟨hcond, hi, hj⟩ := extract_cond_true resp i j hf hl hij
  refine ⟨?_, ?_, ?_⟩
  · simp only [simple_extract]
    rw [if_pos hcond, hi, hj, hp]
  · simp only [demo_extract]
    rw [if_pos hcond, hi, hj, hp]
  · simp only [working_extract]
    rw [if_pos hcond, hi, hj, hp]

/-! ## Claim theorems -/

/-- Claim C1: for every model response text, the extractor takes the
position of the first open brace and the last close brace; when both
exist and the close position follows the open position, the inclusive
substring between them is the candidate handed to the JSON parse, and
a successfully parsed candidate is the returned result (in all three
extractor variants). -/
theorem extractor_parses_first_to_last_brace_span
    (resp : List Char) (template_type : String) (i j : Nat) (v : Json)
    (hf : firstIdx lbrace resp = some i)
    (hl : lastIdx rbrace resp = some j)
    (hij : i < j + 1)
    (hp : json_loads (pySlice resp i (j + 1)) = some v) :
    simple_extract template_type resp = v
    ∧ demo_extract resp = v
    ∧ working_extract resp = v :=
  extract_parsed_of_span resp template_type i j v hf hl hij hp

/-- Witness for C1 at the concrete response xx(object)yy. -/
theorem extractor_parses_first_to_last_brace_span_witness :
    firstIdx lbrace ("xx\x7b\"a\":1\x7dyy".toList) = some 2
    ∧ lastIdx rbrace ("xx\x7b\"a\":1\x7dyy".toList) = some 8
    ∧ (2 : Nat) < 8 + 1
    ∧ json_loads (pySlice ("xx\x7b\"a\":1\x7dyy".toList) 2 (8 + 1))
        = some (Json.obj [("a", Json.num "1")])
    ∧ simple_extract "Generic" ("xx\x7b\"a\":1\x7dyy".toList)
        = Json.obj [("a", Json.num "1")] :=
  ⟨rfl, rfl, by omega,
    rfl,
    (extractor_parses_first_to_last_brace_span ("xx\x7b\"a\":1\x7dyy".toList)
      "Generic" 2 8 (Json.obj [("a", Json.num "1")]) rfl rfl (by omega) rfl).1⟩

/-- Claim C7: on the two-object input, the candidate is the span from
the first open brace to the last close brace, i.e. the whole text; its
parse fails; and the simple_ai extractor therefore returns the hardcoded
fallback. -/
theorem two_objects_input_falls_back :
    firstIdx lbrace ("\x7b\"a\":1\x7d and also \x7b\"b\":2\x7d".toList) = some 0
    ∧ lastIdx rbrace ("\x7b\"a\":1\x7d and also \x7b\"b\":2\x7d".toList) = some 23
    ∧ pySlice ("\x7b\"a\":1\x7d and also \x7b\"b\":2\x7d".toList) 0 24
        = "\x7b\"a\":1\x7d and also \x7b\"b\":2\x7d".toList
    ∧ json_loads ("\x7b\"a\":1\x7d and also \x7b\"b\":2\x7d".toList) = none
    ∧ simple_extract "Unknown" ("\x7b\"a\":1\x7d and also \x7b\"b\":2\x7d".toList)
        = simple_fallback "Unknown" :=
  ⟨rfl, rfl, rfl, rfl, rfl⟩

/-- Claim C2: whenever the input is arbitrary prose (holding no open
brace) followed by a well-formed JSON object text (an open brace, a
body, a final close brace) followed by arbitrary prose (holding no
close brace), the extractor returns exactly the value json.loads gives
on that object text alone. -/
theorem embedded_json_extracted_regardless_of_prose
    (pre core post : List Char) (template_type : String) (v : Json)
    (hpre : lbrace ∉ pre) (hpost : rbrace ∉ post)
    (hp : json_loads (lbrace :: (core ++ [rbrace])) = some v) :
    simple_extract template_type (pre ++ (lbrace :: (core ++ [rbrace])) ++ post) = v
    ∧ demo_extract (pre ++ (lbrace :: (core ++ [rbrace])) ++ post) = v := by
  have hf : firstIdx lbrace (pre ++ (lbrace :: (core ++ [rbrace])) ++ post)
      = some pre.length := by
    rw [List.append_assoc, firstIdx_append_of_not_mem _ _ _ hpre]
    simp [firstIdx]
  have hpost' : lastIdx rbrace post = none :=
    (lastIdx_eq_none_iff rbrace post).mpr hpost
  have hmidl : lastIdx rbrace (lbrace :: (core ++ [rbrace]))
      = some (core.length + 1) := by
    simp [lastIdx, lastIdx_concat_self rbrace core]
  have hl : lastIdx rbrace (pre ++ (lbrace :: (core ++ [rbrace])) ++ post)
      = some (pre.length + (core.length + 1)) := by
    rw [lastIdx_append, hpost', lastIdx_append, hmidl]
  have hslice : pySlice (pre ++ (lbrace :: (core ++ [rbrace])) ++ post)
      pre.length (pre.length + (core.length + 1) + 1)
      = lbrace :: (core ++ [rbrace]) := by
    have hb : pre.length + (core.length + 1) + 1
        = (pre ++ (lbrace :: (core ++ [rbrace]))).length := by
      simp; omega
    rw [pySlice, hb, List.take_left, List.drop_left]
  have h := extract_parsed_of_span
    (pre ++ (lbrace :: (core ++ [rbrace])) ++ post) template_type
    pre.length (pre.length + (core.length + 1)) v hf hl (by omega)
    (by rw [hslice]; exact hp)
  exact ⟨h.1, h.2.1⟩

/-- Witness for C2 at the example given by the spec: prose, the object with
title X and empty sections, prose. -/
theorem embedded_json_extracted_regardless_of_prose_witness :
    lbrace ∉ ("Here you go: ".toList)
    ∧ rbrace ∉ (" hope that helps".toList)
    ∧ json_loads (lbrace :: ("\"title\":\"X\",\"sections\":[]".toList ++ [rbrace]))
        = some (Json.obj [("title", Json.str "X"), ("sections", Json.arr [])])
    ∧ simple_extract "Generic"
        ("Here you go: ".toList
          ++ (lbrace :: ("\"title\":\"X\",\"sections\":[]".toList ++ [rbrace]))
          ++ " hope that helps".toList)
        = Json.obj [("title", Json.str "X"), ("sections", Json.arr [])] :=
  ⟨by decide, by decide, rfl,
    (embedded_json_extracted_regardless_of_prose
      ("Here you go: ".toList) ("\"title\":\"X\",\"sections\":[]".toList)
      (" hope that helps".toList) "Generic"
      (Json.obj [("title", Json.str "X"), ("sections", Json.arr [])])
      (by decide) (by decide) rfl).1⟩

/-- The guard in the code fails when there is no open brace, no close
brace, or the first open brace follows the last close brace. -/
theorem extract_cond_false (s : List Char)
    (h : lbrace ∉ s ∨ rbrace ∉ s
      ∨ ∃ i j, firstIdx lbrace s = some i ∧ lastIdx rbrace s = some j ∧ j < i) :
    ¬(pyFind lbrace s ≠ -1 ∧ pyRfind rbrace s + 1 > pyFind lbrace s) := by
  rcases h with h | h | ⟨i, j, hf, hl, hij⟩
  · have hn := (firstIdx_eq_none_iff lbrace s).mpr h
    simp [pyFind, hn]
  · have hn := (lastIdx_eq_none_iff rbrace s).mpr h
    cases hf : firstIdx lbrace s with
    | none => simp [pyFind, hf]
    | some i =>
      simp only [pyFind, pyRfind, hf, hn, not_and, gt_iff_lt, not_lt]
      intro _
      omega
  · simp only [pyFind, pyRfind, hf, hl, not_and, gt_iff_lt, not_lt]
    intro _
    omega

/-- Counterexample to claim C3: the input is a bracketed array with no
brace at all, yet the simple_ai extractor does not return the fallback:
the whole-response json.loads on the else path succeeds and its value
is returned. -/
theorem no_brace_fallback_counterexample :
    lbrace ∉ ("[1]".toList)
    ∧ rbrace ∉ ("[1]".toList)
    ∧ simple_extract "Unknown" ("[1]".toList) = Json.arr [Json.num "1"]
    ∧ simple_extract "Unknown" ("[1]".toList) ≠ simple_fallback "Unknown" := by
  refine ⟨by decide, by decide, rfl, fun h => ?_⟩
  have h2 : Json.arr [Json.num "1"] = simple_fallback "Unknown" := h
  exact Json.noConfusion h2

/-- Claim C3 as amended: on input with no open brace, no close brace,
or the first open brace after the last close brace, the demo_ai
extractor returns the fixed fallback, while the simple_ai extractor
parses the whole text as JSON and returns that value when the parse
succeeds, falling back only when it fails; neither raises. -/
theorem no_brace_span_behavior (template_type : String) (s : List Char)
    (h : lbrace ∉ s ∨ rbrace ∉ s
      ∨ ∃ i j, firstIdx lbrace s = some i ∧ lastIdx rbrace s = some j ∧ j < i) :
    demo_extract s = demo_fallback
    ∧ simple_extract template_type s
        = (json_loads s).getD (simple_fallback template_type) := by
  have hc := extract_cond_false s h
  constructor
  · simp only [demo_extract]
    rw [if_neg hc]
  · simp only [simple_extract]
    rw [if_neg hc]
    cases json_loads s <;> rfl

/-- Witness for the amended C3 at the brace-free example from the spec. -/
theorem no_brace_span_behavior_witness :
    lbrace ∉ ("Sorry, I cannot help with that.".toList)
    ∧ demo_extract ("Sorry, I cannot help with that.".toList) = demo_fallback
    ∧ simple_extract "Unknown" ("Sorry, I cannot help with that.".toList)
        = (json_loads ("Sorry, I cannot help with that.".toList)).getD
            (simple_fallback "Unknown") :=
  ⟨by decide,
    (no_brace_span_behavior "Unknown" ("Sorry, I cannot help with that.".toList)
      (Or.inl (by decide))).1,
    (no_brace_span_behavior "Unknown" ("Sorry, I cannot help with that.".toList)
      (Or.inl (by decide))).2⟩

/-- Claim C4 (evidence for the code bug): with the OPENAI_API_KEY
variable absent from the environment, the key falls back to the
non-empty placeholder, the health flag still reports configured,
the not-configured guard of working_ai does not fire (its one network
request is issued and the upstream error string comes back), and
call_openai in simple_ai issues its single request unconditionally.
The claimed short-circuit therefore never happens. -/
theorem missing_credential_still_attempts_call :
    OPENAI_API_KEY none = "your-openai-key-here"
    ∧ health_openai_configured none = true
    ∧ working_call_openai_run (OPENAI_API_KEY none) "p" (.resp 401 "unauthorized")
        = ("OpenAI Error: 401", 1)
    ∧ (simple_call_openai_run "p" (.resp 401 "unauthorized")).2 = 1 :=
  ⟨rfl, rfl, rfl, rfl⟩

/-- Counterexample to claim C10: setting the OPENAI_API_KEY variable
to the empty string defeats the default, the health flag reports not
configured, and the not-configured branch of call_openai in working_ai
is reached (no network request). -/
theorem empty_string_key_not_configured :
    health_openai_configured (some "") = false
    ∧ working_call_openai_run (OPENAI_API_KEY (some "")) "p" (.resp 200 "hello")
        = ("OpenAI not configured", 0) :=
  ⟨rfl, rfl⟩

/-- Claim C10 as amended: in every environment in which the
OPENAI_API_KEY variable is unset or set to a non-empty string — in
particular whenever it is absent, thanks to the non-empty default —
bool(OPENAI_API_KEY) is true, the health endpoints report
openai_configured, and the not-configured branch of working_ai is not
taken (each call issues its one network request). -/
theorem key_truthy_unless_empty_env_value (envVar : Option String)
    (h : ∀ t, envVar = some t → t ≠ "") :
    health_openai_configured envVar = true
    ∧ ∀ (prompt : String) (u : Upstream),
        (working_call_openai_run (OPENAI_API_KEY envVar) prompt u).2 = 1 := by
  have hk : pyTruthyStr (OPENAI_API_KEY envVar) = true := by
    cases envVar with
    | none => rfl
    | some t =>
      have ht := h t rfl
      simp [OPENAI_API_KEY, pyGetenv, pyTruthyStr, ht]
  refine ⟨hk, fun prompt u => ?_⟩
  simp [working_call_openai_run, hk]

/-- Witness for the amended C10 in the unset-variable environment. -/
theorem key_truthy_unless_empty_env_value_witness :
    (∀ t, (none : Option String) = some t → t ≠ "")
    ∧ health_openai_configured none = true
    ∧ (working_call_openai_run (OPENAI_API_KEY none) "p" (.resp 200 "ok")).2 = 1 :=
  ⟨(fun _ h => nomatch h),
    (key_truthy_unless_empty_env_value none (fun _ h => nomatch h)).1,
    (key_truthy_unless_empty_env_value none (fun _ h => nomatch h)).2
      "p" (.resp 200 "ok")⟩

/-- Counterexample to claim C5: main.py has no fallback at all; a
model text with no parseable JSON makes json.loads raise and the
endpoint answers HTTPException 500 — a hard failure surfaced to the
caller. -/
theorem main_unparseable_output_http500 :
    json_loads ("Sorry, I cannot help.".toList) = none
    ∧ main_parse_flow ("Sorry, I cannot help.".toList) = .httpError 500
    ∧ (main_create_flow_run "Grant" "doc" (.resp 200 "Sorry, I cannot help.")).1
        = .httpError 500 :=
  ⟨rfl, rfl, rfl⟩

/-- Claim C5 as amended: when the model text has no parseable JSON (no
brace-span candidate parses, and the whole text is not JSON either),
demo_ai recovers locally by substituting the fixed fallback, but
main.py surfaces the condition as an HTTP 500 error. -/
theorem unparseable_output_fallback_or_500 (resp : List Char)
    (hspan : demo_extract_attempt resp = none)
    (hwhole : json_loads resp = none) :
    demo_extract resp = demo_fallback
    ∧ main_parse_flow resp = .httpError 500 := by
  constructor
  · by_cases hc : (pyFind lbrace resp ≠ -1
        ∧ pyRfind rbrace resp + 1 > pyFind lbrace resp)
    · simp only [demo_extract_attempt] at hspan
      rw [if_pos hc] at hspan
      simp only [demo_extract]
      rw [if_pos hc, hspan]
    · simp only [demo_extract]
      rw [if_neg hc]
  · simp only [main_parse_flow, hwhole]

/-- Witness for the amended C5 at a brace-free model text. -/
theorem unparseable_output_fallback_or_500_witness :
    demo_extract_attempt ("I have no JSON for you.".toList) = none
    ∧ json_loads ("I have no JSON for you.".toList) = none
    ∧ demo_extract ("I have no JSON for you.".toList) = demo_fallback
    ∧ main_parse_flow ("I have no JSON for you.".toList) = .httpError 500 :=
  ⟨rfl, rfl,
    (unparseable_output_fallback_or_500 ("I have no JSON for you.".toList) rfl rfl).1,
    (unparseable_output_fallback_or_500 ("I have no JSON for you.".toList) rfl rfl).2⟩

/-- Counterexample to claim C6: an upstream 500 flows through
create_flow of working_ai into a normal success response — success is
True, the flow is the Converted Flow placeholder, and the status only
survives inside the preview text. Nothing is surfaced as a service
error. -/
theorem working_upstream_error_reported_as_success :
    working_create_flow "sk-test" "doc" (.resp 500 "Internal Server Error")
      = ⟨true, working_else_flow, "OpenAI Error: 500"⟩ :=
  rfl

/-- Claim C6 as amended: in simple_ai a non-200 upstream status (or a
network failure) is surfaced as an HTTP 500 service error whose detail
carries the upstream status and text; in working_ai and demo_ai the
same condition is converted into a normal success response whose
payload merely embeds the error string containing the status. -/
theorem upstream_error_surfacing_by_variant
    (template_type template_content key text : String) (status : Nat)
    (hs : status ≠ 200) (hk : pyTruthyStr key = true) :
    simple_create_flow template_type template_content (.resp status text)
      = .error (500, "Error: "
          ++ ("OpenAI API error: " ++ toString status ++ " - " ++ text))
    ∧ (∀ m : String, simple_create_flow template_type template_content (.netError m)
        = .error (500, "Error: " ++ m))
    ∧ working_create_flow key template_content (.resp status text)
      = ⟨true, working_extract ("OpenAI Error: " ++ toString status).toList,
          working_ai_preview ("OpenAI Error: " ++ toString status)⟩
    ∧ (demo_call_openai_simple_run key "p" (.resp status text)).1
      = "OpenAI API Error: " ++ toString status := by
  refine ⟨?_, fun m => rfl, ?_, ?_⟩
  · simp [simple_create_flow, simple_create_flow_run, simple_call_openai_run, hs]
  · simp [working_create_flow, working_create_flow_run,
      working_call_openai_run, hk, hs]
  · simp [demo_call_openai_simple_run, hk, hs]

/-- Witness for the amended C6 at a 404 upstream status. -/
theorem upstream_error_surfacing_by_variant_witness :
    (404 : Nat) ≠ 200
    ∧ pyTruthyStr "sk-live" = true
    ∧ simple_create_flow "Grant" "doc" (.resp 404 "Not Found")
        = .error (500, "Error: "
            ++ ("OpenAI API error: " ++ toString (404 : Nat) ++ " - " ++ "Not Found")) :=
  ⟨by decide, by decide,
    (upstream_error_surfacing_by_variant "Grant" "doc" "sk-live" "Not Found" 404
      (by decide) (by decide)).1⟩

/-- Claim C8: prompt building is deterministic — equal documents,
template types and histories give byte-identical prompt strings for
each embedded builder. -/
theorem prompt_builders_deterministic
    (d1 d2 t1 t2 : String) (h1 h2 : List (String × String)) (c1 c2 u1 u2 : String)
    (hd : d1 = d2) (ht : t1 = t2) (hh : h1 = h2) (hc : c1 = c2) (hu : u1 = u2) :
    simple_prompt t1 d1 = simple_prompt t2 d2
    ∧ main_create_flow_prompt t1 d1 = main_create_flow_prompt t2 d2
    ∧ main_process_prompt h1 c1 u1 = main_process_prompt h2 c2 u2
    ∧ working_prompt d1 = working_prompt d2 := by
  subst hd; subst ht; subst hh; subst hc; subst hu
  exact ⟨rfl, rfl, rfl, rfl⟩

/-- Witness for C8 at concrete inputs. -/
theorem prompt_builders_deterministic_witness :
    simple_prompt "Grant" "doc" = simple_prompt "Grant" "doc"
    ∧ main_process_prompt [("q1", "a1")] "q2" "a2"
        = main_process_prompt [("q1", "a1")] "q2" "a2" :=
  ⟨(prompt_builders_deterministic "doc" "doc" "Grant" "Grant"
      [("q1", "a1")] [("q1", "a1")] "q2" "q2" "a2" "a2"
      rfl rfl rfl rfl rfl).1,
    (prompt_builders_deterministic "doc" "doc" "Grant" "Grant"
      [("q1", "a1")] [("q1", "a1")] "q2" "q2" "a2" "a2"
      rfl rfl rfl rfl rfl).2.2.1⟩

/-- Claim C9: each embedded request pipeline issues at most one
upstream request before answering, so no failed call is ever retried
within the same request. -/
theorem at_most_one_upstream_call_per_request
    (template_type template_content key : String) (u : Upstream) :
    (simple_create_flow_run template_type template_content u).2 ≤ 1
    ∧ (main_create_flow_run template_type template_content u).2 ≤ 1
    ∧ (working_create_flow_run key template_content u).2 ≤ 1 := by
  refine ⟨?_, ?_, ?_⟩
  · simp [simple_create_flow_run, simple_call_openai_run]
  · simp [main_create_flow_run, main_openai_create_run]
  · simp only [working_create_flow_run, working_call_openai_run]
    by_cases hk : pyTruthyStr key <;> simp [hk]

end ReqAgent
